import Mathlib

/-!
Shallow embedding of the virtio-vsock device front-end of dragonball-sandbox
(crates/dbs-virtio-devices/src/vsock/device.rs and
crates/dbs-virtio-devices/src/vsock/metrics.rs).

The device layer in device.rs delegates byte-level config access, feature
pages, queue-size validation and event-handler registration to components
that live elsewhere in the repository (VirtioDeviceInfo, EpollManager, the
muxer).  Those components are modelled here from the specification, each
with a doc comment saying so; everything else is translated directly from
device.rs.  Rust u8/u16/u32/u64 values are embedded as Nat with explicit
truncation where the source truncates.
-/

/-- Metrics counters of the vsock device, from vsock/metrics.rs.  Each
`SharedIncMetric` is embedded as a natural-number counter; `inc` is `+ 1`. -/
structure VsockDeviceMetrics where
  event_count : Nat := 0
  activate_fails : Nat := 0
  cfg_fails : Nat := 0
  rx_queue_event_fails : Nat := 0
  tx_queue_event_fails : Nat := 0
  ev_queue_event_fails : Nat := 0
  muxer_event_fails : Nat := 0
  conn_event_fails : Nat := 0
  rx_queue_event_count : Nat := 0
  tx_queue_event_count : Nat := 0
  ev_queue_event_count : Nat := 0
  backend_event_count : Nat := 0
  rx_bytes_count : Nat := 0
  tx_bytes_count : Nat := 0
  rx_packets_count : Nat := 0
  tx_packets_count : Nat := 0
  conns_added : Nat := 0
  conns_killed : Nat := 0
  conns_removed : Nat := 0
  killq_resync : Nat := 0
  tx_flush_fails : Nat := 0
  tx_write_fails : Nat := 0
  rx_read_fails : Nat := 0
  deriving Repr, DecidableEq

/-- Increment of the `cfg_fails` counter (`self.metrics.cfg_fails.inc()`). -/
def VsockDeviceMetrics.incCfgFails (m : VsockDeviceMetrics) : VsockDeviceMetrics :=
  { m with cfg_fails := m.cfg_fails + 1 }

/-- Increment of the `activate_fails` counter (`self.metrics.activate_fails.inc()`). -/
def VsockDeviceMetrics.incActivateFails (m : VsockDeviceMetrics) : VsockDeviceMetrics :=
  { m with activate_fails := m.activate_fails + 1 }

/-- Modelled from the spec: the feature-bit numbers come from the
`defs::uapi` module, which is not among the given sources; the virtio
specification fixes `VIRTIO_F_VERSION_1` as feature bit 32. -/
def VIRTIO_F_VERSION_1 : Nat := 32

/-- Modelled from the spec: `VIRTIO_F_IN_ORDER` is virtio feature bit 35
(`defs::uapi`, not among the given sources). -/
def VIRTIO_F_IN_ORDER : Nat := 35

/-- Modelled from the spec: `VIRTIO_ID_VSOCK` is the virtio device type id
of a vsock device, 19 (`defs::uapi`, not among the given sources). -/
def VIRTIO_ID_VSOCK : Nat := 19

/-- Driver name constant from device.rs. -/
def VSOCK_DRIVER_NAME : String := "virtio-vsock"

/-- Size of the device configuration space in bytes, from device.rs. -/
def VSOCK_CONFIG_SPACE_SIZE : Nat := 8

/-- Advertised features, from device.rs:
`1u64 << VIRTIO_F_VERSION_1 | 1u64 << VIRTIO_F_IN_ORDER`. -/
def VSOCK_AVAIL_FEATURES : Nat :=
  (1 <<< VIRTIO_F_VERSION_1) ||| (1 <<< VIRTIO_F_IN_ORDER)

/-- Modelled from the spec: a host-side transport backend.  The backend
trait itself is not among the given sources; the spec keys the registry by
destination port, which is all the device layer needs of it. -/
structure VsockBackend where
  dst_port : Nat
  deriving Repr, DecidableEq

/-- Muxer error type (`super::muxer::Error`).  The variant
`BackendAddAfterActivated` is named in device.rs; `BackendRegistered` is
modelled from the spec's backend-registry description. -/
inductive MuxerError where
  | BackendRegistered
  | BackendAddAfterActivated
  deriving Repr, DecidableEq

/-- Device activation error (queue-size validation failure). -/
inductive ActivateError where
  | InvalidQueueConfig
  deriving Repr, DecidableEq

/-- Vsock device error type; the device layer only produces muxer errors. -/
inductive VsockError where
  | Muxer (e : MuxerError)
  deriving Repr, DecidableEq

/-- Modelled from the spec: the muxer owns a registry of backends keyed by
destination port plus one optional default backend (spec 3 and 4.4).  The
muxer's connection table and kill-queue are runtime state irrelevant to the
device layer and are not modelled. -/
structure VsockMuxer where
  cid : Nat
  backends : List (Nat × VsockBackend) := []
  default_backend : Option Nat := none
  deriving Repr, DecidableEq

/-- Modelled from the spec: `VsockGenericMuxer::add_backend` registers a
backend under its destination port; at most one backend may be marked
default (spec 4.2), and a port already registered is refused. -/
def VsockMuxer.add_backend (m : VsockMuxer) (b : VsockBackend) (is_default : Bool) :
    Except MuxerError VsockMuxer :=
  if m.backends.any (fun p => p.1 == b.dst_port) then
    .error .BackendRegistered
  else if is_default && m.default_backend.isSome then
    .error .BackendRegistered
  else
    .ok { m with
          backends := m.backends ++ [(b.dst_port, b)],
          default_backend := if is_default then some b.dst_port else m.default_backend }

/-- One virtio queue as seen at activation time; only its size matters to
the device layer's queue-size validation. -/
structure VirtioQueueConfig where
  queue_size : Nat
  deriving Repr, DecidableEq

/-- The activation-time device configuration (`VirtioDeviceConfig`); only
the queue list is relevant to the vsock device layer. -/
structure VirtioDeviceConfig where
  queues : List VirtioQueueConfig
  deriving Repr, DecidableEq

/-- The epoll handler built at activation (`VsockEpollHandler::new`): it
receives the device config, the device id, the cid and ownership of the
muxer (device.rs lines 178-185). -/
structure VsockEpollHandler where
  config : VirtioDeviceConfig
  device_id : String
  cid : Nat
  muxer : VsockMuxer
  deriving Repr, DecidableEq

/-- Modelled from the spec: the external event dispatcher (`EpollManager`).
It hands out registration tokens (`SubscriberId`) for registered handlers
and removes them by token. -/
structure EpollManager where
  next_id : Nat := 0
  subscribers : List (Nat × VsockEpollHandler) := []
  deriving Repr, DecidableEq

/-- Modelled from the spec: registering a handler with the dispatcher
returns a fresh registration token. -/
def EpollManager.add_subscriber (mgr : EpollManager) (h : VsockEpollHandler) :
    EpollManager × Nat :=
  ({ next_id := mgr.next_id + 1, subscribers := mgr.subscribers ++ [(mgr.next_id, h)] },
    mgr.next_id)

/-- Modelled from the spec: deregistering by token; returns whether the
token was registered. -/
def EpollManager.remove_subscriber (mgr : EpollManager) (sid : Nat) :
    EpollManager × Bool :=
  if mgr.subscribers.any (fun p => p.1 == sid) then
    ({ mgr with subscribers := mgr.subscribers.filter (fun p => p.1 != sid) }, true)
  else
    (mgr, false)

/-- The generic device-info component (`VirtioDeviceInfo`), external to the
vsock module; its fields are those device.rs constructs it with. -/
structure VirtioDeviceInfo where
  driver_name : String
  avail_features : Nat
  acked_features : Nat := 0
  queue_sizes : List Nat
  config_space : List Nat
  epoll_mgr : EpollManager
  deriving Repr, DecidableEq

/-- Modelled from the spec: `VirtioDeviceInfo::get_avail_features` delivers
the 64-bit feature word in 32-bit pages: page 0 is the low half, page 1 the
high half, any other page is 0 (pinned by the unit test in device.rs). -/
def VirtioDeviceInfo.get_avail_features (info : VirtioDeviceInfo) (page : Nat) : Nat :=
  match page with
  | 0 => info.avail_features % 2 ^ 32
  | 1 => (info.avail_features >>> 32) % 2 ^ 32
  | _ => 0

/-- Modelled from the spec: `VirtioDeviceInfo::set_acked_features`
accumulates acknowledged bits of the addressed 32-bit page; bits the device
did not advertise are ignored, not rejected (spec 6; pinned by the unit
test in device.rs, which checks the acked set ends up as the intersection
of device and driver features). -/
def VirtioDeviceInfo.set_acked_features (info : VirtioDeviceInfo) (page value : Nat) :
    VirtioDeviceInfo :=
  let v : Nat :=
    match page with
    | 0 => value % 2 ^ 32
    | 1 => (value % 2 ^ 32) <<< 32
    | _ => 0
  { info with acked_features := info.acked_features ||| (v &&& info.avail_features) }

/-- Modelled from the spec: `VirtioDeviceInfo::read_config` copies the
bytes of the config space that overlap the requested range into the front
of the destination and leaves the remainder of the destination unchanged;
it reports failure (for the caller to count) when the offset or the length
runs past the config space.  The overlap-copy-and-leave-the-rest behaviour
is pinned by the out-of-bounds read in the unit test of device.rs. -/
def VirtioDeviceInfo.read_config (info : VirtioDeviceInfo) (offset : Nat)
    (data : List Nat) : List Nat × Bool :=
  if info.config_space.length ≤ offset then
    (data, false)
  else
    (((info.config_space.drop offset).take
        (min data.length (info.config_space.length - offset)))
       ++ data.drop (min data.length (info.config_space.length - offset)),
      decide (offset + data.length ≤ info.config_space.length))

/-- Modelled from the spec: `VirtioDeviceInfo::write_config` for the vsock
device.  The device has no writable configuration, so every guest write
attempt is rejected (and logged) and reported as a failure to the caller
(spec 6 and the comment in the unit test of device.rs). -/
def VirtioDeviceInfo.write_config (info : VirtioDeviceInfo) (_offset : Nat)
    (_data : List Nat) : VirtioDeviceInfo × Bool :=
  (info, false)

/-- Modelled from the spec: `VirtioDeviceInfo::check_queue_sizes` validates
the activation-time queues against the configured maxima: the number of
queues must match and no queue size may exceed its maximum. -/
def VirtioDeviceInfo.check_queue_sizes (info : VirtioDeviceInfo)
    (queues : List VirtioQueueConfig) : Except ActivateError Unit :=
  if queues.length == info.queue_sizes.length
      && (queues.zip info.queue_sizes).all (fun p => decide (p.1.queue_size ≤ p.2)) then
    .ok ()
  else
    .error .InvalidQueueConfig

/-- Registration of an event handler through the device info's epoll
manager handle, returning the new state and the token. -/
def VirtioDeviceInfo.register_event_handler (info : VirtioDeviceInfo)
    (h : VsockEpollHandler) : VirtioDeviceInfo × Nat :=
  ({ info with epoll_mgr := (info.epoll_mgr.add_subscriber h).1 },
    (info.epoll_mgr.add_subscriber h).2)

/-- Deregistration of an event handler by token through the epoll manager
handle; the boolean reports whether the token was registered. -/
def VirtioDeviceInfo.remove_event_handler (info : VirtioDeviceInfo) (sid : Nat) :
    VirtioDeviceInfo × Bool :=
  ({ info with epoll_mgr := (info.epoll_mgr.remove_subscriber sid).1 },
    (info.epoll_mgr.remove_subscriber sid).2)

/-- The vsock device state, from the `Vsock` struct of device.rs.  The
`Arc` sharing of queue sizes and metrics is immaterial to the embedded
behaviour and is dropped. -/
structure Vsock where
  cid : Nat
  queue_sizes : List Nat
  device_info : VirtioDeviceInfo
  subscriber_id : Option Nat
  muxer : Option VsockMuxer
  metrics : VsockDeviceMetrics
  deriving Repr, DecidableEq

/-- The config space built by `new_with_muxer` (device.rs lines 84-87):
byte i is `(cid >> (8 * i)) as u8`. -/
def vsockConfigSpace (cid : Nat) : List Nat :=
  (List.range VSOCK_CONFIG_SPACE_SIZE).map (fun i => (cid >>> (8 * i)) % 256)

/-- `Vsock::new_with_muxer` (device.rs lines 77-104). -/
def Vsock.new_with_muxer (cid : Nat) (queue_sizes : List Nat)
    (epoll_mgr : EpollManager) (muxer : VsockMuxer)
    (metrics : VsockDeviceMetrics) : Vsock :=
  { cid := cid
    queue_sizes := queue_sizes
    device_info :=
      { driver_name := VSOCK_DRIVER_NAME
        avail_features := VSOCK_AVAIL_FEATURES
        acked_features := 0
        queue_sizes := queue_sizes
        config_space := vsockConfigSpace cid
        epoll_mgr := epoll_mgr }
    subscriber_id := none
    muxer := some muxer
    metrics := metrics }

/-- `Vsock::id`: the driver name held by the device info. -/
def Vsock.id (d : Vsock) : String :=
  d.device_info.driver_name

/-- `Vsock::device_type`: always `VIRTIO_ID_VSOCK`. -/
def Vsock.device_type (_d : Vsock) : Nat :=
  VIRTIO_ID_VSOCK

/-- `Vsock::queue_max_sizes`: the device's queue-size vector. -/
def Vsock.queue_max_sizes (d : Vsock) : List Nat :=
  d.queue_sizes

/-- `Vsock::get_avail_features`: forwards to the device info. -/
def Vsock.get_avail_features (d : Vsock) (page : Nat) : Nat :=
  d.device_info.get_avail_features page

/-- `Vsock::set_acked_features`: forwards to the device info. -/
def Vsock.set_acked_features (d : Vsock) (page value : Nat) : Vsock :=
  { d with device_info := d.device_info.set_acked_features page value }

/-- `Vsock::read_config` (device.rs lines 153-159): forwards to the device
info and increments `cfg_fails` when the byte-level access reports
failure.  Returns the updated device and the destination buffer. -/
def Vsock.read_config (d : Vsock) (offset : Nat) (data : List Nat) :
    Vsock × List Nat :=
  if (d.device_info.read_config offset data).2 then
    (d, (d.device_info.read_config offset data).1)
  else
    ({ d with metrics := d.metrics.incCfgFails },
      (d.device_info.read_config offset data).1)

/-- `Vsock::write_config` (device.rs lines 161-167): forwards to the device
info and increments `cfg_fails` when the byte-level access reports
failure. -/
def Vsock.write_config (d : Vsock) (offset : Nat) (data : List Nat) : Vsock :=
  if (d.device_info.write_config offset data).2 then
    { d with device_info := (d.device_info.write_config offset data).1 }
  else
    { d with device_info := (d.device_info.write_config offset data).1,
             metrics := d.metrics.incCfgFails }

/-- `Vsock::add_backend` (device.rs lines 112-120): forwards to the muxer
while the device still owns it, otherwise fails with
`BackendAddAfterActivated`. -/
def Vsock.add_backend (d : Vsock) (b : VsockBackend) (is_default : Bool) :
    Vsock × Except VsockError Unit :=
  match d.muxer with
  | some m =>
    match m.add_backend b is_default with
    | .ok m2 => ({ d with muxer := some m2 }, .ok ())
    | .error e => (d, .error (.Muxer e))
  | none => (d, .error (.Muxer .BackendAddAfterActivated))

/-- Outcome of `Vsock::activate`: success with the updated device, an
activation error with the updated device, or a Rust panic (the `unwrap` of
an empty muxer slot). -/
inductive ActivateOutcome where
  | ok (d : Vsock)
  | err (d : Vsock) (e : ActivateError)
  | panicked
  deriving Repr, DecidableEq

/-- `Vsock::activate` (device.rs lines 169-190): validate queue sizes
(incrementing `activate_fails` and surfacing the error on failure), then
take the muxer out of the device (`unwrap` panics if it is absent), build
the epoll handler, register it and store the returned token. -/
def Vsock.activate (d : Vsock) (config : VirtioDeviceConfig) : ActivateOutcome :=
  match d.device_info.check_queue_sizes config.queues with
  | .error e => .err { d with metrics := d.metrics.incActivateFails } e
  | .ok _ =>
    match d.muxer with
    | none => .panicked
    | some m =>
      .ok { d with
            muxer := none,
            subscriber_id := some (d.device_info.register_event_handler
              { config := config, device_id := d.id, cid := d.cid, muxer := m }).2,
            device_info := (d.device_info.register_event_handler
              { config := config, device_id := d.id, cid := d.cid, muxer := m }).1 }

/-- Modelled from the spec: the resource-constraint request kinds the vsock
device emits (`dbs_device::resources::ResourceConstraint`, not among the
given sources): one legacy interrupt line, or a generic interrupt span of a
given size. -/
inductive ResourceConstraint where
  | LegacyIrq (irq : Option Nat)
  | GenericIrq (size : Nat)
  deriving Repr, DecidableEq

/-- `Vsock::get_resource_requirements` (device.rs lines 192-205): always
push one legacy-interrupt request; under generic-interrupt addressing also
push one generic-interrupt request sized queues + 1. -/
def Vsock.get_resource_requirements (d : Vsock)
    (requests : List ResourceConstraint) (use_generic_irq : Bool) :
    List ResourceConstraint :=
  let r := requests ++ [ResourceConstraint.LegacyIrq none]
  if use_generic_irq then
    r ++ [ResourceConstraint.GenericIrq (d.queue_sizes.length + 1)]
  else
    r

/-- `Vsock::remove` (device.rs lines 215-225): take the stored token; if
one was stored, deregister the handler by it (the result is only logged);
otherwise drop the still-owned muxer. -/
def Vsock.remove (d : Vsock) : Vsock :=
  match d.subscriber_id with
  | some sid =>
    { d with subscriber_id := none,
             device_info := (d.device_info.remove_event_handler sid).1 }
  | none => { d with muxer := none }

/-- One guest- or VMM-visible operation on the device, used to state frame
properties over arbitrary call sequences. -/
inductive DeviceOp where
  | readCfg (offset : Nat) (data : List Nat)
  | writeCfg (offset : Nat) (data : List Nat)
  | setAcked (page value : Nat)
  | addBackendOp (b : VsockBackend) (is_default : Bool)
  | activateOp (config : VirtioDeviceConfig)
  | removeOp
  deriving Repr, DecidableEq

/-- State reached after one device operation (the device part of each
operation's result; a panicking activation leaves no successor state and
is mapped to the unchanged device). -/
def Vsock.applyOp (d : Vsock) (op : DeviceOp) : Vsock :=
  match op with
  | .readCfg o data => (d.read_config o data).1
  | .writeCfg o data => d.write_config o data
  | .setAcked p v => d.set_acked_features p v
  | .addBackendOp b f => (d.add_backend b f).1
  | .activateOp cfg =>
    match d.activate cfg with
    | .ok d2 => d2
    | .err d2 _ => d2
    | .panicked => d
  | .removeOp => d.remove

/-- State reached after a sequence of device operations. -/
def Vsock.applyOps (d : Vsock) (ops : List DeviceOp) : Vsock :=
  ops.foldl Vsock.applyOp d

/-- The construction-time identity of a device: its context id, its
config-space bytes and its queue-size vector, bundled for frame
reasoning. -/
def vsockIdentity (d : Vsock) : Nat × List Nat × List Nat :=
  (d.cid, d.device_info.config_space, d.queue_sizes)

/-! Concrete device used by the evaluation witnesses: cid 52, three queues
of maximum size 256, fresh dispatcher, muxer and metrics. -/

def mgrW : EpollManager := {}

def muxW : VsockMuxer := { cid := 52 }

def metricsW : VsockDeviceMetrics := {}

def qsW : List Nat := [256, 256, 256]

def devW : Vsock := Vsock.new_with_muxer 52 qsW mgrW muxW metricsW

def bW : VsockBackend := { dst_port := 1234 }

/-- The muxer state after registering the witness backend as default. -/
def muxAddedW : VsockMuxer :=
  { cid := 52, backends := [(1234, bW)], default_backend := some 1234 }

def cfgW : VirtioDeviceConfig :=
  { queues := [{ queue_size := 256 }, { queue_size := 256 }, { queue_size := 256 }] }

def cfgBadW : VirtioDeviceConfig :=
  { queues := [{ queue_size := 512 }, { queue_size := 256 }, { queue_size := 256 }] }

def devActW : Vsock :=
  match devW.activate cfgW with
  | .ok d2 => d2
  | _ => devW

/-! Helper lemmas shared across the development. -/

/-- The destination buffer returned by `Vsock::read_config` is the buffer
produced by the byte-level access, whether or not the access failed. -/
theorem vsock_read_config_data (d : Vsock) (o : Nat) (data : List Nat) :
    (d.read_config o data).2 = (d.device_info.read_config o data).1 := by
  unfold Vsock.read_config
  split <;> rfl

/-- The device returned by `Vsock::read_config`: unchanged on success, the
`cfg_fails` counter bumped on failure. -/
theorem vsock_read_config_dev (d : Vsock) (o : Nat) (data : List Nat) :
    (d.read_config o data).1
      = if (d.device_info.read_config o data).2 then d
        else { d with metrics := d.metrics.incCfgFails } := by
  unfold Vsock.read_config
  split <;> simp_all

/-- Success flag of the byte-level config read: true exactly when the
requested range lies inside the config space. -/
theorem read_config_snd_eq (info : VirtioDeviceInfo) (o : Nat) (data : List Nat) :
    (info.read_config o data).2
      = decide (o < info.config_space.length
          ∧ o + data.length ≤ info.config_space.length) := by
  unfold VirtioDeviceInfo.read_config
  split
  · next hc =>
    have hx : ¬ (o < info.config_space.length
        ∧ o + data.length ≤ info.config_space.length) := fun hy => by omega
    simp [hx]
  · next hc =>
    have hx : o < info.config_space.length := by omega
    simp [hx]

/-- An in-range byte-level config read returns exactly the requested slice
of the config space. -/
theorem read_config_fst_in_range (info : VirtioDeviceInfo) (o : Nat)
    (data : List Nat) (h : o + data.length ≤ info.config_space.length) :
    (info.read_config o data).1
      = (info.config_space.drop o).take data.length := by
  unfold VirtioDeviceInfo.read_config
  split
  · next ho =>
    have h0 : data.length = 0 := by omega
    have hnil : data = [] := List.eq_nil_of_length_eq_zero h0
    simp [hnil]
  · next ho =>
    have hmin : min data.length (info.config_space.length - o) = data.length :=
      Nat.min_eq_left (by omega)
    rw [hmin, List.drop_length, List.append_nil]

/-- A byte-level config read whose offset is past the config space leaves
the destination untouched. -/
theorem read_config_fst_oob_low (info : VirtioDeviceInfo) (o : Nat)
    (data : List Nat) (ho : info.config_space.length ≤ o) :
    (info.read_config o data).1 = data := by
  unfold VirtioDeviceInfo.read_config
  rw [if_pos ho]

/-- A byte-level config read overlapping the end of the config space copies
the overlapping bytes and leaves the tail of the destination untouched. -/
theorem read_config_fst_overlap (info : VirtioDeviceInfo) (o : Nat)
    (data : List Nat) (ho : o < info.config_space.length)
    (hlong : info.config_space.length ≤ o + data.length) :
    (info.read_config o data).1
      = (info.config_space.drop o).take (info.config_space.length - o)
          ++ data.drop (info.config_space.length - o) := by
  unfold VirtioDeviceInfo.read_config
  rw [if_neg (by omega)]
  have hmin : min data.length (info.config_space.length - o)
      = info.config_space.length - o := Nat.min_eq_right (by omega)
  rw [hmin]

/-- Length of the construction-time config space. -/
theorem vsockConfigSpace_length (cid : Nat) :
    (vsockConfigSpace cid).length = 8 := by
  simp [vsockConfigSpace, VSOCK_CONFIG_SPACE_SIZE]

/-! Claim theorems. -/

/-- C1: activation is atomic.  If queue-size validation fails, `activate`
returns the error with `activate_fails` incremented exactly once and every
other part of the device state unchanged (no handler registered, the token
still absent, the muxer still owned); if validation succeeds on a device
that still owns its muxer, `activate` hands the muxer to the new epoll
handler, registers it, stores the returned token and returns Ok. -/
theorem vsock_activate_atomic (d : Vsock) (cfg : VirtioDeviceConfig) :
    (∀ e, d.device_info.check_queue_sizes cfg.queues = .error e →
      d.activate cfg = .err { d with metrics := d.metrics.incActivateFails } e)
    ∧
    (∀ m, d.muxer = some m →
      d.device_info.check_queue_sizes cfg.queues = .ok () →
      d.activate cfg = .ok { d with
        muxer := none,
        subscriber_id := some (d.device_info.register_event_handler
          { config := cfg, device_id := d.id, cid := d.cid, muxer := m }).2,
        device_info := (d.device_info.register_event_handler
          { config := cfg, device_id := d.id, cid := d.cid, muxer := m }).1 }) := by
  constructor
  · intro e he
    unfold Vsock.activate
    rw [he]
  · intro m hm hok
    unfold Vsock.activate
    rw [hok, hm]

/-- C1 witness: on the concrete device, a bad queue configuration produces
the error outcome with the failure counter bumped, and a good one produces
the registered outcome. -/
theorem vsock_activate_atomic_witness :
    devW.activate cfgBadW
      = ActivateOutcome.err { devW with metrics := devW.metrics.incActivateFails }
          ActivateError.InvalidQueueConfig
    ∧ devW.activate cfgW
      = ActivateOutcome.ok { devW with
          muxer := none,
          subscriber_id := some (devW.device_info.register_event_handler
            { config := cfgW, device_id := devW.id, cid := devW.cid, muxer := muxW }).2,
          device_info := (devW.device_info.register_event_handler
            { config := cfgW, device_id := devW.id, cid := devW.cid, muxer := muxW }).1 } :=
  ⟨(vsock_activate_atomic devW cfgBadW).1 ActivateError.InvalidQueueConfig rfl,
    (vsock_activate_atomic devW cfgW).2 muxW rfl rfl⟩

/-- C2: after a successful activation the muxer slot is empty, so
`add_backend` always fails with the `BackendAddAfterActivated` muxer error
and leaves the device unchanged; before activation it forwards the backend
and the default flag to the still-owned muxer, storing the updated muxer on
success and surfacing the muxer error otherwise. -/
theorem vsock_add_backend_lifecycle (d d2 : Vsock) (cfg : VirtioDeviceConfig)
    (b : VsockBackend) (f : Bool)
    (hact : d.activate cfg = ActivateOutcome.ok d2) :
    (d2.add_backend b f
      = (d2, .error (VsockError.Muxer MuxerError.BackendAddAfterActivated)))
    ∧ (∀ m, d.muxer = some m →
        (∀ m2, m.add_backend b f = .ok m2 →
          d.add_backend b f = ({ d with muxer := some m2 }, .ok ()))
        ∧ (∀ e, m.add_backend b f = .error e →
          d.add_backend b f = (d, .error (VsockError.Muxer e)))) := by
  have hmux : d2.muxer = none := by
    unfold Vsock.activate at hact
    split at hact
    · cases hact
    · split at hact
      · cases hact
      · cases hact
        rfl
  refine ⟨?_, ?_⟩
  · unfold Vsock.add_backend
    rw [hmux]
  · intro m hm
    constructor
    · intro m2 hok
      simp [Vsock.add_backend, hm, hok]
    · intro e herr
      simp [Vsock.add_backend, hm, herr]

/-- C2 witness: on the concrete device, adding a backend after the
successful activation fails with the dedicated error, while adding the
same backend before activation registers it with the muxer. -/
theorem vsock_add_backend_lifecycle_witness :
    devActW.add_backend bW true
      = (devActW, .error (VsockError.Muxer MuxerError.BackendAddAfterActivated))
    ∧ devW.add_backend bW true = ({ devW with muxer := some muxAddedW }, .ok ()) :=
  ⟨(vsock_add_backend_lifecycle devW devActW cfgW bW true rfl).1,
    ((vsock_add_backend_lifecycle devW devActW cfgW bW true rfl).2 muxW rfl).1
      muxAddedW rfl⟩

/-- C3: the construction-time config space is the little-endian encoding of
the context id (byte i is (cid >> 8*i) mod 256), and reading any in-range
sub-range (offset o, length l, o + l ≤ 8) through the device returns
exactly bytes o..o+l of that encoding. -/
theorem vsock_config_space_little_endian (cid o l : Nat) (data qs : List Nat)
    (mgr : EpollManager) (mux : VsockMuxer) (ms : VsockDeviceMetrics)
    (hlen : data.length = l) (hrange : o + l ≤ 8) :
    (∀ i, i < 8 → (vsockConfigSpace cid)[i]? = some ((cid >>> (8 * i)) % 256))
    ∧ ((Vsock.new_with_muxer cid qs mgr mux ms).read_config o data).2
        = ((vsockConfigSpace cid).drop o).take l := by
  constructor
  · intro i hi
    simp [vsockConfigSpace, VSOCK_CONFIG_SPACE_SIZE, hi]
  · rw [vsock_read_config_data]
    have hcs : (Vsock.new_with_muxer cid qs mgr mux ms).device_info.config_space
        = vsockConfigSpace cid := rfl
    have h2 : o + data.length
        ≤ ((Vsock.new_with_muxer cid qs mgr mux ms).device_info.config_space).length := by
      rw [hcs, vsockConfigSpace_length]
      omega
    rw [read_config_fst_in_range _ o data h2, hcs, hlen]

/-- C3 witness: on the concrete device with cid 52, reading offset 2 and
length 4 returns the corresponding slice of the little-endian encoding. -/
theorem vsock_config_space_little_endian_witness :
    ((Vsock.new_with_muxer 52 qsW mgrW muxW metricsW).read_config 2 [7, 7, 7, 7]).2
      = ((vsockConfigSpace 52).drop 2).take 4 :=
  (vsock_config_space_little_endian 52 2 4 [7, 7, 7, 7] qsW mgrW muxW metricsW
    rfl (by decide)).2

/-- C4 counterexample: the claim says the untouched portion of the
destination is zero-filled on an out-of-range read.  On the concrete
device (cid 52), reading 8 bytes at offset 2 over an initial buffer of
ones copies the six overlapping config bytes and leaves the last two
destination bytes at their prior value 1, so the buffer is not
zero-filled.  This matches the out-of-bounds read asserted by the unit
test in device.rs (result [0,0,0,0,0,0,6,7] over initial [0,1,...,7]). -/
theorem vsock_read_config_oob_not_zero_filled :
    ((devW.read_config 2 [1, 1, 1, 1, 1, 1, 1, 1]).2 = [0, 0, 0, 0, 0, 0, 1, 1])
    ∧ (devW.read_config 2 [1, 1, 1, 1, 1, 1, 1, 1]).2 ≠ [0, 0, 0, 0, 0, 0, 0, 0] := by
  constructor
  · rfl
  · decide

/-- C4 (amended): a `read_config` whose requested range extends past the
8-byte config space increments `cfg_fails` exactly once, leaves every
other part of the device unchanged, and returns normally with the
destination buffer holding the overlapping config bytes in front and its
prior contents (not zeroes) beyond them; with the offset itself out of
range the destination is returned entirely untouched. -/
theorem vsock_read_config_out_of_range (cid o : Nat) (data qs : List Nat)
    (mgr : EpollManager) (mux : VsockMuxer) (ms : VsockDeviceMetrics)
    (h : ¬ o + data.length ≤ 8) :
    ((Vsock.new_with_muxer cid qs mgr mux ms).read_config o data).1
        = { Vsock.new_with_muxer cid qs mgr mux ms with metrics := ms.incCfgFails }
    ∧ (8 ≤ o →
        ((Vsock.new_with_muxer cid qs mgr mux ms).read_config o data).2 = data)
    ∧ (o < 8 →
        ((Vsock.new_with_muxer cid qs mgr mux ms).read_config o data).2
          = ((vsockConfigSpace cid).drop o).take (8 - o) ++ data.drop (8 - o)) := by
  have hcs : (Vsock.new_with_muxer cid qs mgr mux ms).device_info.config_space
      = vsockConfigSpace cid := rfl
  have hclen : ((Vsock.new_with_muxer cid qs mgr mux ms).device_info.config_space).length
      = 8 := by rw [hcs, vsockConfigSpace_length]
  have hfail : ((Vsock.new_with_muxer cid qs mgr mux ms).device_info.read_config o data).2
      = false := by
    rw [read_config_snd_eq, hclen]
    simp
    omega
  refine ⟨?_, ?_, ?_⟩
  · rw [vsock_read_config_dev, hfail]
    rfl
  · intro ho
    rw [vsock_read_config_data]
    exact read_config_fst_oob_low _ o data (by omega)
  · intro ho
    rw [vsock_read_config_data]
    have := read_config_fst_overlap
      ((Vsock.new_with_muxer cid qs mgr mux ms).device_info) o data
      (by omega) (by omega)
    rw [hclen, hcs] at this
    exact this

/-- C4 witness: on the concrete device, an out-of-range read bumps
`cfg_fails` and copies only the overlapping bytes. -/
theorem vsock_read_config_out_of_range_witness :
    ((devW.read_config 2 [1, 1, 1, 1, 1, 1, 1, 1]).1
        = { devW with metrics := metricsW.incCfgFails })
    ∧ ((devW.read_config 2 [1, 1, 1, 1, 1, 1, 1, 1]).2
        = ((vsockConfigSpace 52).drop 2).take 6 ++ [1, 1]) :=
  ⟨(vsock_read_config_out_of_range 52 2 [1, 1, 1, 1, 1, 1, 1, 1] qsW mgrW muxW
      metricsW (by decide)).1,
    ((vsock_read_config_out_of_range 52 2 [1, 1, 1, 1, 1, 1, 1, 1] qsW mgrW muxW
      metricsW (by decide)).2.2 (by decide))⟩

/-- C5: `write_config` never alters the device configuration: the device
info (and hence everything any subsequent `read_config` returns) is
unchanged, the muxer slot and the registration token are untouched, and
the `cfg_fails` counter is incremented exactly once per write attempt; the
call is total, so it never faults. -/
theorem vsock_write_config_no_effect (d : Vsock) (o : Nat) (data : List Nat) :
    (d.write_config o data).device_info = d.device_info
    ∧ (d.write_config o data).metrics = d.metrics.incCfgFails
    ∧ (∀ o2 data2,
        ((d.write_config o data).read_config o2 data2).2 = (d.read_config o2 data2).2)
    ∧ (d.write_config o data).muxer = d.muxer
    ∧ (d.write_config o data).subscriber_id = d.subscriber_id := by
  have h1 : (d.write_config o data).device_info = d.device_info := rfl
  refine ⟨h1, rfl, ?_, rfl, rfl⟩
  intro o2 data2
  rw [vsock_read_config_data, vsock_read_config_data, h1]

/-- C6: `remove` handles both lifecycle states: with a stored registration
token it deregisters by that token and clears it; without one it drops the
still-owned muxer instead; and in either lifecycle state (token absent, or
muxer already handed off) a second `remove` changes nothing. -/
theorem vsock_remove_lifecycle (d : Vsock) :
    (∀ sid, d.subscriber_id = some sid →
      d.remove = { d with
        subscriber_id := none,
        device_info := (d.device_info.remove_event_handler sid).1 })
    ∧ (d.subscriber_id = none → d.remove = { d with muxer := none })
    ∧ (d.subscriber_id = none ∨ d.muxer = none → d.remove.remove = d.remove) := by
  obtain ⟨c, qs, info, sub, mux, ms⟩ := d
  refine ⟨?_, ?_, ?_⟩
  · intro sid hs
    cases sub with
    | none => cases hs
    | some s =>
      cases hs
      rfl
  · intro hs
    cases sub with
    | none => rfl
    | some s => cases hs
  · intro hcase
    cases sub with
    | none =>
      cases hcase with
      | inl h => rfl
      | inr h => rfl
    | some s =>
      cases hcase with
      | inl h => cases h
      | inr h =>
        cases h
        rfl

/-- C6 witness: removing the activated concrete device deregisters by the
stored token and clears it, and on the never-activated device a second
`remove` changes nothing. -/
theorem vsock_remove_lifecycle_witness :
    devActW.remove = { devActW with
      subscriber_id := none,
      device_info := (devActW.device_info.remove_event_handler 0).1 }
    ∧ devW.remove.remove = devW.remove :=
  ⟨(vsock_remove_lifecycle devActW).1 0 rfl,
    (vsock_remove_lifecycle devW).2.2 (Or.inl rfl)⟩

/-- C7: every constructed device advertises exactly the version-1 and
in-order feature bits and nothing else, and acknowledging a bit the device
does not advertise through `set_acked_features` is silently ignored: the
acknowledged set never gains a bit outside the advertised set (and the
call is total, so nothing is rejected). -/
theorem vsock_avail_features_exact (cid : Nat) (qs : List Nat)
    (mgr : EpollManager) (mux : VsockMuxer) (ms : VsockDeviceMetrics) :
    (Vsock.new_with_muxer cid qs mgr mux ms).device_info.avail_features
        = VSOCK_AVAIL_FEATURES
    ∧ (∀ i, VSOCK_AVAIL_FEATURES.testBit i
        ↔ (i = VIRTIO_F_VERSION_1 ∨ i = VIRTIO_F_IN_ORDER))
    ∧ (∀ (d : Vsock), d.device_info.avail_features = VSOCK_AVAIL_FEATURES →
        ∀ page value i, ¬ VSOCK_AVAIL_FEATURES.testBit i →
          (d.set_acked_features page value).device_info.acked_features.testBit i
            = d.device_info.acked_features.testBit i) := by
  refine ⟨rfl, ?_, ?_⟩
  · intro i
    have hv : VSOCK_AVAIL_FEATURES = 2 ^ 32 ||| 2 ^ 35 := rfl
    rw [hv]
    simp only [Nat.testBit_or, Nat.testBit_two_pow, Bool.or_eq_true,
      decide_eq_true_eq]
    show (32 = i ∨ 35 = i) ↔ (i = 32 ∨ i = 35)
    omega
  · intro d havail page value i hbit
    have hb : VSOCK_AVAIL_FEATURES.testBit i = false := by
      cases hval : VSOCK_AVAIL_FEATURES.testBit i with
      | false => rfl
      | true => exact absurd hval hbit
    simp [Vsock.set_acked_features, VirtioDeviceInfo.set_acked_features,
      Nat.testBit_or, Nat.testBit_and, havail, hb]

/-- C7 witness: on the concrete device, acknowledging driver bit 0 (not
advertised) leaves the acknowledged set unchanged at that bit. -/
theorem vsock_avail_features_exact_witness :
    (devW.set_acked_features 0 3).device_info.acked_features.testBit 0
      = devW.device_info.acked_features.testBit 0 :=
  (vsock_avail_features_exact 52 qsW mgrW muxW metricsW).2.2 devW rfl 0 3 0
    (by decide)

/-- C8: `get_resource_requirements` preserves the pre-existing request
entries and appends exactly one legacy-interrupt request, followed, when
the generic-interrupt mode flag is set, by exactly one generic-interrupt
request sized number of queues plus one. -/
theorem vsock_resource_requirements (d : Vsock)
    (requests : List ResourceConstraint) (use_generic_irq : Bool) :
    (d.get_resource_requirements requests use_generic_irq).take requests.length
        = requests
    ∧ (d.get_resource_requirements requests use_generic_irq).drop requests.length
        = [ResourceConstraint.LegacyIrq none]
          ++ (if use_generic_irq then
                [ResourceConstraint.GenericIrq (d.queue_sizes.length + 1)]
              else []) := by
  unfold Vsock.get_resource_requirements
  cases use_generic_irq <;>
    simp [List.append_assoc, List.take_left, List.drop_left]

/-- C9: the muxer `unwrap` inside `activate` never panics while the device
still owns its muxer (in particular on a first activation), but a second
`activate` after a successful one panics as soon as it passes queue-size
validation, because the muxer slot is already empty. -/
theorem vsock_activate_muxer_panic (d : Vsock) (cfg : VirtioDeviceConfig) :
    (d.muxer.isSome → d.activate cfg ≠ ActivateOutcome.panicked)
    ∧ (∀ d2 cfg2, d.activate cfg = ActivateOutcome.ok d2 →
        d2.device_info.check_queue_sizes cfg2.queues = Except.ok () →
        d2.activate cfg2 = ActivateOutcome.panicked) := by
  constructor
  · intro hm
    unfold Vsock.activate
    split
    · intro hc
      cases hc
    · split
      · next hnone =>
        rw [hnone] at hm
        simp at hm
      · intro hc
        cases hc
  · intro d2 cfg2 hok hchk
    have hmux : d2.muxer = none := by
      unfold Vsock.activate at hok
      split at hok
      · cases hok
      · split at hok
        · cases hok
        · cases hok
          rfl
    unfold Vsock.activate
    rw [hchk, hmux]

/-- C9 witness: the first activation of the concrete device does not
panic, and re-activating the already-activated device with the same valid
queue configuration panics. -/
theorem vsock_activate_muxer_panic_witness :
    devW.activate cfgW ≠ ActivateOutcome.panicked
    ∧ devActW.activate cfgW = ActivateOutcome.panicked :=
  ⟨(vsock_activate_muxer_panic devW cfgW).1 rfl,
    (vsock_activate_muxer_panic devW cfgW).2 devActW cfgW rfl rfl⟩

/-- Single-step form of the identity frame property: no device operation
changes the context id, the config-space bytes or the queue-size vector. -/
theorem vsock_applyOp_identity (d : Vsock) (op : DeviceOp) :
    vsockIdentity (d.applyOp op) = vsockIdentity d := by
  cases op with
  | readCfg o data =>
    simp only [Vsock.applyOp]
    unfold Vsock.read_config
    split <;> rfl
  | writeCfg o data =>
    simp only [Vsock.applyOp]
    unfold Vsock.write_config
    split <;> rfl
  | setAcked p v =>
    rfl
  | addBackendOp b f =>
    simp only [Vsock.applyOp]
    unfold Vsock.add_backend
    split
    · split <;> rfl
    · rfl
  | activateOp cfg =>
    simp only [Vsock.applyOp]
    split
    · next d2 heq =>
      unfold Vsock.activate at heq
      split at heq
      · cases heq
      · split at heq
        · cases heq
        · cases heq
          rfl
    · next d2 e heq =>
      unfold Vsock.activate at heq
      split at heq
      · cases heq
        rfl
      · split at heq
        · cases heq
        · cases heq
    · rfl
  | removeOp =>
    simp only [Vsock.applyOp]
    unfold Vsock.remove
    split <;> rfl

/-- Sequence form of the identity frame property. -/
theorem vsock_applyOps_identity (d : Vsock) (ops : List DeviceOp) :
    vsockIdentity (d.applyOps ops) = vsockIdentity d := by
  induction ops generalizing d with
  | nil => rfl
  | cons op rest ih =>
    exact ((ih (d.applyOp op)).trans (vsock_applyOp_identity d op) : _)

/-- C10: identity frame property.  After any sequence of device
operations (config reads and writes, feature acknowledgements, backend
additions, activations and removals), the stored context id, the
config-space bytes, the queue-size vector reported by `queue_max_sizes`
and the `device_type` value are all equal to their starting values. -/
theorem vsock_device_identity_frame (d : Vsock) (ops : List DeviceOp) :
    (d.applyOps ops).cid = d.cid
    ∧ (d.applyOps ops).device_info.config_space = d.device_info.config_space
    ∧ (d.applyOps ops).queue_max_sizes = d.queue_max_sizes
    ∧ (d.applyOps ops).device_type = d.device_type := by
  have h := vsock_applyOps_identity d ops
  unfold vsockIdentity at h
  simp only [Prod.mk.injEq] at h
  exact ⟨h.1, h.2.1, h.2.2, rfl⟩
